import Mathlib

/-!
Shallow embedding of the event engine of the `my-nostr-im` client
(`src/src/App.tsx`, first variant, and `src/unnamed/part_000`, a second
variant that differs only in sorting/dedup details and a self-profile
refresh).  Pure functions of the source are translated directly; the
platform primitives `JSON.parse`, `crypto.subtle.digest` (SHA-256) and the
nostr-tools signing primitive are passed in as function parameters, since
they are external capabilities, not code of this repository.
-/

namespace NostrIM

/-! ### JSON values and `JSON.stringify`

Model of the JavaScript values the engine serializes, together with a
faithful rendering of `JSON.stringify` for them: strings are quoted with
the standard JSON escapes, numbers print in decimal, arrays and objects
render without whitespace, object keys in insertion order. -/

inductive Json where
  | num : Int → Json
  | str : String → Json
  | arr : List Json → Json
  | obj : List (String × Json) → Json

def natToHexStr (n : Nat) : String :=
  String.mk (Nat.toDigits 16 n)

def padStartStr (s : String) (n : Nat) (c : Char) : String :=
  if n ≤ s.length then s else String.mk (List.replicate (n - s.length) c) ++ s

/-- JS `substring(0, n)` / `take` on the character sequence. -/
def takeChars (s : String) (n : Nat) : String :=
  String.mk (s.toList.take n)

/-- JS `substring(n)` / `drop` on the character sequence. -/
def dropChars (s : String) (n : Nat) : String :=
  String.mk (s.toList.drop n)

def jsIsWhitespace (c : Char) : Bool :=
  c = ' ' || c = '\t' || c = '\n' || c = '\r' || c = '\x0b' || c = '\x0c'

/-- JS `String.prototype.trim`: strip leading and trailing whitespace. -/
def jsTrim (s : String) : String :=
  String.mk (((s.toList.dropWhile jsIsWhitespace).reverse.dropWhile jsIsWhitespace).reverse)

def escapeChar (c : Char) : String :=
  if c = '"' then "\\\""
  else if c = '\\' then "\\\\"
  else if c = '\x08' then "\\b"
  else if c = '\x09' then "\\t"
  else if c = '\x0a' then "\\n"
  else if c = '\x0c' then "\\f"
  else if c = '\x0d' then "\\r"
  else if c.toNat < 32 then "\\u" ++ padStartStr (natToHexStr c.toNat) 4 '0'
  else String.singleton c

def quoteString (s : String) : String :=
  "\"" ++ String.join (s.toList.map escapeChar) ++ "\""

mutual

def jsonStr : Json → String
  | .num i => toString i
  | .str s => quoteString s
  | .arr xs => "[" ++ jsonStrElems xs ++ "]"
  | .obj kvs => "\x7b" ++ jsonStrPairs kvs ++ "\x7d"

def jsonStrElems : List Json → String
  | [] => ""
  | [x] => jsonStr x
  | x :: y :: xs => jsonStr x ++ "," ++ jsonStrElems (y :: xs)

def jsonStrPairs : List (String × Json) → String
  | [] => ""
  | [kv] => quoteString kv.1 ++ ":" ++ jsonStr kv.2
  | kv :: kv2 :: xs => quoteString kv.1 ++ ":" ++ jsonStr kv.2 ++ "," ++ jsonStrPairs (kv2 :: xs)

end

/-! ### Event data model

`EventTemplate` is the unsigned object literal built by `handleSendMessage`
and `sendProfileEvent` (fields in JS insertion order: kind, tags, content,
created_at, pubkey).  `NostrEvent` is the final `{...eventTemplate, id, sig}`
object.  `RecvEvent` is an event arriving from a relay frame, where `id` and
`sig` may be absent (`Option`). -/

structure EventTemplate where
  kind : Int
  tags : List (List String)
  content : String
  created_at : Int
  pubkey : String
deriving DecidableEq

structure NostrEvent where
  kind : Int
  tags : List (List String)
  content : String
  created_at : Int
  pubkey : String
  id : String
  sig : String
deriving DecidableEq

structure RecvEvent where
  kind : Int
  tags : List (List String)
  content : String
  created_at : Int
  pubkey : String
  id : Option String
  sig : Option String
deriving DecidableEq

def NostrEvent.toRecv (e : NostrEvent) : RecvEvent :=
  ⟨e.kind, e.tags, e.content, e.created_at, e.pubkey, some e.id, some e.sig⟩

/-! ### Canonical Event Codec

`JSON.stringify([0, pubkey, created_at, kind, tags, content])`, digested by
the platform SHA-256 primitive (`crypto.subtle.digest`, passed in as a
byte-valued parameter) and hex-encoded byte-by-byte exactly as the source
does with `b.toString(16).padStart(2, '0')`. -/

def tagsJson (tags : List (List String)) : Json :=
  Json.arr (tags.map (fun t => Json.arr (t.map Json.str)))

def serializeCanonical (pubkey : String) (created_at : Int) (kind : Int)
    (tags : List (List String)) (content : String) : String :=
  jsonStr (Json.arr [Json.num 0, Json.str pubkey, Json.num created_at,
    Json.num kind, tagsJson tags, Json.str content])

def byteToHex (b : Nat) : String :=
  padStartStr (natToHexStr b) 2 '0'

def bytesToHex (bs : List Nat) : String :=
  String.join (bs.map byteToHex)

def computeEventId (sha256 : String → List Nat) (t : EventTemplate) : String :=
  bytesToHex (sha256 (serializeCanonical t.pubkey t.created_at t.kind t.tags t.content))

/-- Recompute the canonical digest from an event's five canonical fields,
the check the spec's invariant asks for. -/
def recomputeId (sha256 : String → List Nat) (e : NostrEvent) : String :=
  bytesToHex (sha256 (serializeCanonical e.pubkey e.created_at e.kind e.tags e.content))

/-! ### Signing Service (`generateSignature` and its key normalization)

The source normalizes the private-key string to 64 hex characters (a
64-character string is used as-is, anything else is converted from char
codes and truncated), parses it into 32 bytes with `parseInt(hex, 16)`
(where a non-hex pair yields `NaN`, stored as byte `0`), and hands template
and key bytes to nostr-tools' `finalizeEvent`.  On a thrown error it falls
back to a non-cryptographic 32-bit rolling hash. -/

def charCodeHex (c : Char) : String :=
  padStartStr (natToHexStr c.toNat) 2 '0'

def normalizeKeyHex (k : String) : String :=
  if k.length = 64 then k
  else takeChars (String.join (k.toList.map charCodeHex)) 64

def hexVal? (c : Char) : Option Nat :=
  if '0' ≤ c ∧ c ≤ '9' then some (c.toNat - 48)
  else if 'a' ≤ c ∧ c ≤ 'f' then some (c.toNat - 87)
  else if 'A' ≤ c ∧ c ≤ 'F' then some (c.toNat - 55)
  else none

/-- `parseInt(s, 16)`: value of the longest hex-digit prefix, `none` for `NaN`. -/
def parseHexPrefix (s : String) : Option Nat :=
  match s.toList with
  | [] => none
  | c :: cs =>
    match hexVal? c with
    | none => none
    | some v => some (go v cs)
where
  go (acc : Nat) : List Char → Nat
    | [] => acc
    | c :: cs =>
      match hexVal? c with
      | none => acc
      | some v => go (16 * acc + v) cs

/-- One byte of the normalized key; `NaN` from `parseInt` is stored as 0 by
the `Uint8Array`. -/
def hexPairByte (s : String) : Nat :=
  (parseHexPrefix s).getD 0

def keyBytes (k : String) : List Nat :=
  (List.range 32).map (fun i => hexPairByte (takeChars (dropChars (normalizeKeyHex k) (2 * i)) 2))

/-- JavaScript `ToInt32` (the coercion applied by `<<` and `&`). -/
def toInt32 (n : Int) : Int :=
  ((n + 2 ^ 31) % 2 ^ 32) - 2 ^ 31

/-- One step of the fallback hash in `generateSignature`:
`acc = ((acc << 5) - acc) + byte + index; acc & acc`. -/
def hashStepIdx (acc : Int) (byte : Nat) (idx : Nat) : Int :=
  toInt32 (toInt32 (acc * 32) - acc + byte + idx)

def simpleHashIdx (s : String) : Int :=
  (s.toList.enum).foldl (fun acc p => hashStepIdx acc p.2.toNat p.1) 0

/-- The fallback signature produced when signing throws:
`Math.abs(hash).toString(16).padStart(128, '0').substring(0, 128)` over
`privateKey + event.id`.  The templates passed to `generateSignature` have
no `id` field, so `event.id` is `undefined` and the concatenation is
`privateKey + "undefined"`. -/
def fallbackSignature (privateKey : String) : String :=
  takeChars (padStartStr (natToHexStr (simpleHashIdx (privateKey ++ "undefined")).natAbs) 128 '0') 128

/-- Modelled from the spec: `finalizeEvent` of the external nostr-tools
library is not part of this repository's sources.  Per the spec's crypto
boundary (§6, `sign(eventId: hex[64], bytes[32]) -> hex[128]`) and canonical
codec (§4.1), it derives the canonical id of the unsigned template and signs
that id with the signing primitive; a `none` result models the primitive
throwing. -/
def finalizeEventSig (sha256 : String → List Nat)
    (signPrim : String → List Nat → Option String)
    (t : EventTemplate) (key : List Nat) : Option String :=
  signPrim (computeEventId sha256 t) key

def generateSignature (sha256 : String → List Nat)
    (signPrim : String → List Nat → Option String)
    (privateKey : String) (t : EventTemplate) : String :=
  match finalizeEventSig sha256 signPrim t (keyBytes privateKey) with
  | some sig => if sig.length = 128 then sig else takeChars (padStartStr sig 128 '0') 128
  | none => fallbackSignature privateKey

/-! ### Event Factory

The templates built by `handleSendMessage` (kind 1, `[["t", channelId]]`)
and `sendProfileEvent` (kind 0, empty tags, JSON profile content).  Both
call sites run the identical inline sequence: `generateSignature` over the
unsigned template first (App.tsx line 455 / 262), then the SHA-256 id
(lines 457-472 / 264-279), then `{...eventTemplate, id, sig}`.
`buildSignedEvent` also returns that statement order as a step trace. -/

inductive BuildStep where
  | signStep
  | idStep
deriving DecidableEq

def channelMessageTemplate (text channelId pubkey : String) (created_at : Int) :
    EventTemplate :=
  ⟨1, [["t", channelId]], text, created_at, pubkey⟩

def profileContent (name pubkey : String) : String :=
  jsonStr (Json.obj
    [("name", Json.str name),
     ("about", Json.str ("Nostr IM user - " ++ name)),
     ("picture", Json.str ("https://api.dicebear.com/7.x/avataaars/svg?seed=" ++ takeChars pubkey 8))])

def profileTemplate (name pubkey : String) (created_at : Int) : EventTemplate :=
  ⟨0, [], profileContent name pubkey, created_at, pubkey⟩

def buildSignedEvent (sha256 : String → List Nat)
    (signPrim : String → List Nat → Option String)
    (privateKey : String) (t : EventTemplate) : NostrEvent × List BuildStep :=
  let sig := generateSignature sha256 signPrim privateKey t
  let id := computeEventId sha256 t
  (⟨t.kind, t.tags, t.content, t.created_at, t.pubkey, id, sig⟩,
   [BuildStep.signStep, BuildStep.idStep])

/-- `{...eventTemplate, id, sig}`: JS spread keeps the template's key
insertion order and appends `id` and `sig`. -/
def eventJson (e : NostrEvent) : Json :=
  Json.obj
    [("kind", Json.num e.kind), ("tags", tagsJson e.tags),
     ("content", Json.str e.content), ("created_at", Json.num e.created_at),
     ("pubkey", Json.str e.pubkey), ("id", Json.str e.id), ("sig", Json.str e.sig)]

def publishFrame (e : NostrEvent) : String :=
  jsonStr (Json.arr [Json.str "EVENT", eventJson e])

/-! ### Connections and broadcast

A connection is represented by its `readyState` (`WebSocket.OPEN = 1`).
Each send loop is `forEach(ws => if (ws.readyState === WebSocket.OPEN)
ws.send(frame))`: one frame per open connection, the rest silently
skipped. -/

def wsOPEN : Nat := 1

def broadcastFrame (frame : String) : List Nat → List String
  | [] => []
  | c :: rest =>
    if c = wsOPEN then frame :: broadcastFrame frame rest
    else broadcastFrame frame rest

/-! ### Subscription Registry -/

def reqProfilesFrame (users : List String) : String :=
  jsonStr (Json.arr [Json.str "REQ", Json.str "profiles_all",
    Json.obj [("kinds", Json.arr [Json.num 0]),
              ("authors", Json.arr (users.map Json.str))]])

def subscribeAllProfiles (conns : List Nat) (users : List String) : List String :=
  if users.length = 0 then [] else broadcastFrame (reqProfilesFrame users) conns

structure SubResult where
  subscribedUsers : List String
  frames : List String
deriving DecidableEq

/-- `addUserToSubscription`: early return when the pubkey is already in the
set; otherwise `new Set([...subscribedUsers, pubkey])` (existing members
first, the new one appended), an immediate bulk profile subscription over
the new set, then the state update. -/
def addUserToSubscription (conns : List Nat) (subscribed : List String)
    (pubkey : String) : SubResult :=
  if pubkey ∈ subscribed then ⟨subscribed, []⟩
  else
    let newSet := subscribed ++ [pubkey]
    ⟨newSet, subscribeAllProfiles conns newSet⟩

/-! ### Message Store & Profile Store -/

structure Message where
  id : String
  text : String
  sender : String
  time : Int
  event : Option RecvEvent
deriving DecidableEq

structure Profile where
  name : String
  about : Option String
  picture : Option String
deriving DecidableEq

/-- Result of `JSON.parse(event.content)` viewed through the three property
accesses the router performs; a parse parameter returning `none` models the
parse throwing. -/
structure ProfileJson where
  name : Option String
  about : Option String
  picture : Option String
deriving DecidableEq

def hasMessageId (msgs : List Message) (i : String) : Bool :=
  msgs.any (fun m => m.id = i)

/-- Message insert of the App.tsx variant: skip when the id is already
present, else plain append — no sort. -/
def insertMessageA (m : Message) (msgs : List Message) : List Message :=
  if hasMessageId msgs m.id then msgs else msgs ++ [m]

def timeLE (a b : Message) : Bool := a.time ≤ b.time

/-- `newMessages.sort((a, b) => a.time - b.time)` — JS `Array.prototype.sort`
is a stable sort, modelled by `mergeSort`. -/
def sortByTime (msgs : List Message) : List Message :=
  msgs.mergeSort timeLE

/-- Message insert of the part_000 variant: skip when the id is already
present, else append and re-sort ascending by `time`. -/
def insertMessageB (m : Message) (msgs : List Message) : List Message :=
  if hasMessageId msgs m.id then msgs else sortByTime (msgs ++ [m])

/-- JS object spread update `{...prev, [k]: v}`: replaces in place when the
key exists, appends otherwise. -/
def upsertProfile (k : String) (v : Profile) :
    List (String × Profile) → List (String × Profile)
  | [] => [(k, v)]
  | (k', v') :: rest =>
    if k' = k then (k, v) :: rest else (k', v') :: upsertProfile k v rest

def lookupProfile (k : String) : List (String × Profile) → Option Profile
  | [] => none
  | (k', v) :: rest => if k' = k then some v else lookupProfile k rest

/-! ### Inbound Event Router

`ws.onmessage` wraps everything in `try/catch`, so a frame whose
`JSON.parse` throws, or whose first element is not `"EVENT"`, is discarded
without side effects; both are modelled by dedicated `Inbound`
constructors.  The router is a total function, so no failure escapes it. -/

inductive Inbound where
  | evt (subId : String) (e : RecvEvent)
  | otherFrame
  | invalidFrame
deriving DecidableEq

structure ChatState where
  messages : List Message
  profiles : List (String × Profile)
  subscribedUsers : List String
deriving DecidableEq

structure User where
  name : String
  pubkey : String
  privateKey : String
deriving DecidableEq

/-- State of the part_000 variant, which additionally refreshes the local
user's display name from their own kind-0 event (`globalUser`). -/
structure ChatStateB where
  messages : List Message
  profiles : List (String × Profile)
  subscribedUsers : List String
  user : Option User
deriving DecidableEq

def defaultName (pubkey : String) : String :=
  "User_" ++ takeChars pubkey 8

/-- `profile.name || "User_" + pubkey.substring(0, 8)` (JS `||`: a missing
or empty name falls back). -/
def profileDisplayName (p : ProfileJson) (pubkey : String) : String :=
  match p.name with
  | some n => if n = "" then defaultName pubkey else n
  | none => defaultName pubkey

def profileRecord (p : ProfileJson) (pubkey : String) : Profile :=
  ⟨profileDisplayName p pubkey, p.about, p.picture⟩

/-- `event.tags && event.tags.some(tag => tag[0] === 't' && tag[1] === channelId)`. -/
def hasChannelTag (tags : List (List String)) (channelId : String) : Bool :=
  tags.any (fun tag => decide (tag[0]? = some "t") && decide (tag[1]? = some channelId))

def receivedFallbackKey (e : RecvEvent) : String :=
  "received_" ++ toString e.created_at ++ "_" ++ takeChars e.pubkey 8

/-- `event.id || 'received_' + event.created_at + '_' + pubkey.substring(0, 8)`
(JS `||`: absent or empty id falls back to the synthesized key). -/
def messageKey (e : RecvEvent) : String :=
  match e.id with
  | some s => if s = "" then receivedFallbackKey e else s
  | none => receivedFallbackKey e

def recvMessage (e : RecvEvent) : Message :=
  ⟨messageKey e, e.content, e.pubkey, e.created_at * 1000, some e⟩

def routeKind0A (contentParse : String → Option ProfileJson) (e : RecvEvent)
    (st : ChatState) : ChatState :=
  match contentParse e.content with
  | none => st
  | some p => { st with profiles := upsertProfile e.pubkey (profileRecord p e.pubkey) st.profiles }

def routeKind1A (conns : List Nat) (channelId : String) (e : RecvEvent)
    (st : ChatState) : ChatState × List String :=
  if hasChannelTag e.tags channelId then
    let sub := addUserToSubscription conns st.subscribedUsers e.pubkey
    ({ st with
        subscribedUsers := sub.subscribedUsers,
        messages := insertMessageA (recvMessage e) st.messages }, sub.frames)
  else (st, [])

/-- `ws.onmessage` of the App.tsx variant, given the decoded frame; the
second component is the outbound subscription frames triggered by
`addUserToSubscription`. -/
def onMessageA (contentParse : String → Option ProfileJson) (conns : List Nat)
    (channelId : String) (fr : Inbound) (st : ChatState) : ChatState × List String :=
  match fr with
  | .invalidFrame => (st, [])
  | .otherFrame => (st, [])
  | .evt _ e =>
    if e.kind = 0 then (routeKind0A contentParse e st, [])
    else if e.kind = 1 then routeKind1A conns channelId e st
    else (st, [])

def routeKind0B (contentParse : String → Option ProfileJson) (e : RecvEvent)
    (st : ChatStateB) : ChatStateB :=
  match contentParse e.content with
  | none => st
  | some p =>
    let nm := profileDisplayName p e.pubkey
    let user' :=
      match st.user with
      | some u => if e.pubkey = u.pubkey then some { u with name := nm } else some u
      | none => none
    { st with
        profiles := upsertProfile e.pubkey (profileRecord p e.pubkey) st.profiles,
        user := user' }

def routeKind1B (conns : List Nat) (channelId : String) (e : RecvEvent)
    (st : ChatStateB) : ChatStateB × List String :=
  if hasChannelTag e.tags channelId then
    let sub := addUserToSubscription conns st.subscribedUsers e.pubkey
    ({ st with
        subscribedUsers := sub.subscribedUsers,
        messages := insertMessageB (recvMessage e) st.messages }, sub.frames)
  else (st, [])

/-- `ws.onmessage` of the part_000 variant. -/
def onMessageB (contentParse : String → Option ProfileJson) (conns : List Nat)
    (channelId : String) (fr : Inbound) (st : ChatStateB) : ChatStateB × List String :=
  match fr with
  | .invalidFrame => (st, [])
  | .otherFrame => (st, [])
  | .evt _ e =>
    if e.kind = 0 then (routeKind0B contentParse e st, [])
    else if e.kind = 1 then routeKind1B conns channelId e st
    else (st, [])

/-! ### Send pipelines -/

/-- The local-echo record appended by `handleSendMessage`: keyed by the
event's id, `time` from a fresh `Date.now()` (milliseconds). -/
def localEchoMessage (sha256 : String → List Nat)
    (signPrim : String → List Nat → Option String)
    (text channelId : String) (u : User) (created_at nowMs : Int) : Message :=
  let e := (buildSignedEvent sha256 signPrim u.privateKey
    (channelMessageTemplate text channelId u.pubkey created_at)).1
  ⟨e.id, text, u.pubkey, nowMs, some e.toRecv⟩

structure SendResult where
  event : Option NostrEvent
  published : List String
  state : ChatState
  subFrames : List String
deriving DecidableEq

/-- `handleSendMessage` of the App.tsx variant: guard on empty input or
missing user, build + sign the channel message, broadcast to the open
connections, append the local echo unconditionally (no duplicate check in
this variant), then `addUserToSubscription(user.pubkey)`. -/
def handleSendMessageA (sha256 : String → List Nat)
    (signPrim : String → List Nat → Option String)
    (text : String) (user : Option User) (channelId : String)
    (created_at nowMs : Int) (conns : List Nat) (st : ChatState) : SendResult :=
  match user with
  | none => ⟨none, [], st, []⟩
  | some u =>
    if jsTrim text = "" then ⟨none, [], st, []⟩
    else
      let e := (buildSignedEvent sha256 signPrim u.privateKey
        (channelMessageTemplate text channelId u.pubkey created_at)).1
      let sub := addUserToSubscription conns st.subscribedUsers u.pubkey
      ⟨some e, broadcastFrame (publishFrame e) conns,
        { st with
            messages := st.messages ++ [localEchoMessage sha256 signPrim text channelId u created_at nowMs],
            subscribedUsers := sub.subscribedUsers },
        sub.frames⟩

structure SendResultB where
  event : Option NostrEvent
  published : List String
  state : ChatStateB
  subFrames : List String
deriving DecidableEq

/-- `handleSendMessage` of the part_000 variant: as above, but the local
echo goes through the duplicate check and the time re-sort. -/
def handleSendMessageB (sha256 : String → List Nat)
    (signPrim : String → List Nat → Option String)
    (text : String) (channelId : String)
    (created_at nowMs : Int) (conns : List Nat) (st : ChatStateB) : SendResultB :=
  match st.user with
  | none => ⟨none, [], st, []⟩
  | some u =>
    if jsTrim text = "" then ⟨none, [], st, []⟩
    else
      let e := (buildSignedEvent sha256 signPrim u.privateKey
        (channelMessageTemplate text channelId u.pubkey created_at)).1
      let sub := addUserToSubscription conns st.subscribedUsers u.pubkey
      ⟨some e, broadcastFrame (publishFrame e) conns,
        { st with
            messages := insertMessageB (localEchoMessage sha256 signPrim text channelId u created_at nowMs) st.messages,
            subscribedUsers := sub.subscribedUsers },
        sub.frames⟩

structure ProfileSendResult where
  event : NostrEvent
  published : List String
  retried : Bool
deriving DecidableEq

/-- `sendProfileEvent`: build + sign the kind-0 profile event; with zero
connections it publishes nothing and schedules a retry, otherwise it sends
one frame per open connection. -/
def sendProfileEvent (sha256 : String → List Nat)
    (signPrim : String → List Nat → Option String)
    (name pubkey privateKey : String) (created_at : Int) (conns : List Nat) :
    ProfileSendResult :=
  let e := (buildSignedEvent sha256 signPrim privateKey
    (profileTemplate name pubkey created_at)).1
  if conns.length = 0 then ⟨e, [], true⟩
  else ⟨e, broadcastFrame (publishFrame e) conns, false⟩

/-! ### Concrete fixtures used by witnesses and counterexamples -/

/-- A digest stub: 32 zero bytes for every input (the structural theorems
hold for every digest function; witnesses need a computable one). -/
def sha0 : String → List Nat := fun _ => List.replicate 32 0

def sig128 : String := String.mk (List.replicate 128 'a')

/-- A signing primitive that always succeeds with a 128-character signature. -/
def spSig128 : String → List Nat → Option String := fun _ _ => some sig128

/-- A signing primitive that always throws. -/
def throwingSignPrim : String → List Nat → Option String := fun _ _ => none

/-- A content parse that always fails (`JSON.parse` throwing). -/
def noParse : String → Option ProfileJson := fun _ => none

/-- A content parse that always succeeds with `{"name": "Alice"}`. -/
def aliceParse : String → Option ProfileJson := fun _ => some ⟨some "Alice", none, none⟩

def uA : User := ⟨"alice", "pk", "k"⟩

def st0A : ChatState := ⟨[], [], ["pk"]⟩

/-- Channel message received first, with the later timestamp. -/
def evtLater : RecvEvent := ⟨1, [["t", "ch"]], "m1", 2, "aaaaaaaa", some "idA", some "s"⟩

/-- Channel message received second, with the earlier timestamp. -/
def evtEarlier : RecvEvent := ⟨1, [["t", "ch"]], "m2", 1, "bbbbbbbb", some "idB", some "s"⟩

/-! ### Helper lemmas -/

theorem broadcastFrame_eq_nil (frame : String) (conns : List Nat)
    (h : ∀ c ∈ conns, c ≠ wsOPEN) : broadcastFrame frame conns = [] := by
  induction conns with
  | nil => rfl
  | cons c rest ih =>
    have hc : c ≠ wsOPEN := h c (by simp)
    simp only [broadcastFrame, if_neg hc]
    exact ih fun x hx => h x (by simp [hx])

theorem lookupProfile_upsert_ne (q k : String) (v : Profile)
    (l : List (String × Profile)) (hq : q ≠ k) :
    lookupProfile q (upsertProfile k v l) = lookupProfile q l := by
  induction l with
  | nil => simp [upsertProfile, lookupProfile, Ne.symm hq]
  | cons kv rest ih =>
    obtain ⟨k', v'⟩ := kv
    by_cases hk : k' = k
    · subst hk
      simp [upsertProfile, lookupProfile, Ne.symm hq]
    · simp only [upsertProfile, if_neg hk, lookupProfile]
      by_cases hq' : k' = q <;> simp [hq', ih]

theorem timeLE_trans (a b c : Message) (hab : timeLE a b) (hbc : timeLE b c) :
    timeLE a c := by
  simp only [timeLE, decide_eq_true_eq] at *
  omega

theorem timeLE_total (a b : Message) : timeLE a b || timeLE b a := by
  simp only [timeLE, Bool.or_eq_true, decide_eq_true_eq]
  omega

theorem sortByTime_sorted (msgs : List Message) :
    List.Sorted (fun a b => timeLE a b) (sortByTime msgs) :=
  List.sorted_mergeSort (fun a b c => timeLE_trans a b c) timeLE_total msgs

/-! ### Claim theorems -/

/-- Claim C1: for every event constructed by the Event Factory operations
(the channel message built in `handleSendMessage` and the profile event
built in `sendProfileEvent`), recomputing the SHA-256 digest of the JSON
serialization `[0, pubkey, created_at, kind, tags, content]` of the event's
five canonical fields and hex-encoding it yields exactly the event's `id`
field. -/
theorem factory_recomputed_digest_eq_id (sha256 : String → List Nat)
    (signPrim : String → List Nat → Option String)
    (text channelId name pubkey privateKey : String) (created_at : Int) :
    recomputeId sha256 (buildSignedEvent sha256 signPrim privateKey
        (channelMessageTemplate text channelId pubkey created_at)).1
      = (buildSignedEvent sha256 signPrim privateKey
        (channelMessageTemplate text channelId pubkey created_at)).1.id
    ∧ recomputeId sha256 (buildSignedEvent sha256 signPrim privateKey
        (profileTemplate name pubkey created_at)).1
      = (buildSignedEvent sha256 signPrim privateKey
        (profileTemplate name pubkey created_at)).1.id :=
  ⟨rfl, rfl⟩

/-- Claim C2 counterexample: at a concrete input, the factory's step trace
is `[signStep, idStep]` — `generateSignature` runs on the unsigned template
(App.tsx line 455 / 262) before the SHA-256 id is computed (lines 457-472 /
264-279) — so the id is not computed and available before the signature,
contrary to the claim. -/
theorem sign_step_precedes_id_step :
    (buildSignedEvent sha0 spSig128 "k" (channelMessageTemplate "hi" "ch" "pk" 0)).2
      = [BuildStep.signStep, BuildStep.idStep]
    ∧ BuildStep.signStep ≠ BuildStep.idStep :=
  ⟨rfl, by decide⟩

/-- Claim C2 amended: the signature is computed first, from the unsigned
template (the build trace is `[signStep, idStep]`); the signing primitive
is nonetheless applied to the same canonical id that becomes the event's
`id` field, so whenever the primitive succeeds with a 128-character
signature, `sig` is that primitive's signature over the event's `id`. -/
theorem sig_signs_same_canonical_id (sha256 : String → List Nat)
    (signPrim : String → List Nat → Option String)
    (privateKey : String) (t : EventTemplate) (s : String)
    (hs : signPrim (computeEventId sha256 t) (keyBytes privateKey) = some s)
    (hlen : s.length = 128) :
    (buildSignedEvent sha256 signPrim privateKey t).2
      = [BuildStep.signStep, BuildStep.idStep]
    ∧ signPrim (buildSignedEvent sha256 signPrim privateKey t).1.id (keyBytes privateKey)
        = some (buildSignedEvent sha256 signPrim privateKey t).1.sig := by
  refine ⟨rfl, ?_⟩
  show signPrim (computeEventId sha256 t) (keyBytes privateKey)
    = some (generateSignature sha256 signPrim privateKey t)
  rw [hs, generateSignature, finalizeEventSig, hs]
  simp [hlen]

set_option maxRecDepth 4096 in
/-- Claim C2 witness: the amended theorem applied at a concrete digest,
signing primitive, key and template. -/
theorem sig_signs_same_canonical_id_witness :
    (buildSignedEvent sha0 spSig128 "k" (profileTemplate "alice" "pk" 0)).2
      = [BuildStep.signStep, BuildStep.idStep]
    ∧ spSig128 (buildSignedEvent sha0 spSig128 "k" (profileTemplate "alice" "pk" 0)).1.id (keyBytes "k")
        = some (buildSignedEvent sha0 spSig128 "k" (profileTemplate "alice" "pk" 0)).1.sig :=
  sig_signs_same_canonical_id sha0 spSig128 "k" (profileTemplate "alice" "pk" 0) sig128
    rfl (by decide)

/-- The message times of the App.tsx store after receiving a channel
message with `created_at = 2` and then one with `created_at = 1`. -/
def timesAfterOutOfOrder : List Int :=
  ((onMessageA noParse [] "ch" (.evt "sub" evtEarlier)
      (onMessageA noParse [] "ch" (.evt "sub" evtLater) ⟨[], [], []⟩).1).1.messages.map
    Message.time)

/-- Claim C3 counterexample: in the App.tsx router, receiving a channel
message with `created_at = 2` and then one with `created_at = 1` leaves the
observable message list with times `[2000, 1000]`, which is not sorted
ascending — this variant appends without re-sorting. -/
theorem routerA_view_not_sorted :
    timesAfterOutOfOrder = [2000, 1000]
    ∧ ¬ List.Sorted (· ≤ ·) timesAfterOutOfOrder := by
  refine ⟨rfl, ?_⟩
  rw [show timesAfterOutOfOrder = [2000, 1000] from rfl]
  decide

theorem insertMessageB_sorted_or_unchanged (m : Message) (msgs : List Message) :
    List.Sorted (fun a b => timeLE a b) (insertMessageB m msgs)
      ∨ insertMessageB m msgs = msgs := by
  by_cases h : hasMessageId msgs m.id = true
  · right
    simp [insertMessageB, h]
  · left
    simp only [insertMessageB, if_neg h]
    exact sortByTime_sorted _

/-- Claim C3 amended: in the part_000 variant every mutation of the Message
Store keeps the view sorted — a router step or a send step either leaves
the message list unchanged or produces a list sorted ascending by `time`;
the App.tsx variant appends without sorting (see the counterexample). -/
theorem partB_view_sorted_after_mutation
    (contentParse : String → Option ProfileJson) (conns : List Nat)
    (channelId : String) (fr : Inbound) (st : ChatStateB)
    (sha256 : String → List Nat) (signPrim : String → List Nat → Option String)
    (text : String) (created_at nowMs : Int) :
    (List.Sorted (fun a b => timeLE a b)
        (onMessageB contentParse conns channelId fr st).1.messages
      ∨ (onMessageB contentParse conns channelId fr st).1.messages = st.messages)
    ∧ (List.Sorted (fun a b => timeLE a b)
        (handleSendMessageB sha256 signPrim text channelId created_at nowMs conns st).state.messages
      ∨ (handleSendMessageB sha256 signPrim text channelId created_at nowMs conns st).state.messages
          = st.messages) := by
  constructor
  · cases fr with
    | invalidFrame => right; rfl
    | otherFrame => right; rfl
    | evt subId e =>
      by_cases h0 : e.kind = 0
      · right
        cases hp : contentParse e.content <;>
          simp [onMessageB, routeKind0B, h0, hp]
      · by_cases h1 : e.kind = 1
        · by_cases hct : hasChannelTag e.tags channelId = true
          · have hins := insertMessageB_sorted_or_unchanged (recvMessage e) st.messages
            simpa [onMessageB, routeKind1B, h0, h1, hct] using hins
          · right
            simp [onMessageB, routeKind1B, h0, h1, hct]
        · right
          simp [onMessageB, h0, h1]
  · cases hu : st.user with
    | none => right; simp [handleSendMessageB, hu]
    | some u =>
      by_cases htr : jsTrim text = ""
      · right
        simp [handleSendMessageB, hu, htr]
      · have hins := insertMessageB_sorted_or_unchanged
          (localEchoMessage sha256 signPrim text channelId u created_at nowMs) st.messages
        simpa [handleSendMessageB, hu, htr] using hins

def zeroId64 : String := String.mk (List.replicate 64 '0')

set_option maxRecDepth 16384 in
/-- Claim C4 counterexample: the App.tsx local echo on send has no
duplicate check — sending the same message twice (same template, hence the
same event id) yields a Message Store of size 2 holding the same id twice,
not size 1 as the claim requires. -/
theorem local_echo_duplicate_insert :
    ((handleSendMessageA sha0 spSig128 "hi" (some uA) "ch" 5 5000 []
        (handleSendMessageA sha0 spSig128 "hi" (some uA) "ch" 5 5000 [] st0A).state).state.messages.length = 2)
    ∧ ((handleSendMessageA sha0 spSig128 "hi" (some uA) "ch" 5 5000 []
        (handleSendMessageA sha0 spSig128 "hi" (some uA) "ch" 5 5000 [] st0A).state).state.messages.map
      Message.id) = [zeroId64, zeroId64] :=
  ⟨rfl, rfl⟩

/-- Claim C4 amended: re-inserting an id already present is a no-op for the
router insert of both variants and for part_000's send echo (both run the
duplicate check), and both inserts are idempotent; the App.tsx local echo
on send appends unconditionally, so a duplicate send yields two entries
(see the counterexample). -/
theorem insert_idempotent_on_present_id (m : Message) (msgs : List Message) :
    (hasMessageId msgs m.id = true →
      insertMessageA m msgs = msgs ∧ insertMessageB m msgs = msgs)
    ∧ insertMessageA m (insertMessageA m msgs) = insertMessageA m msgs
    ∧ insertMessageB m (insertMessageB m msgs) = insertMessageB m msgs := by
  refine ⟨fun h => ⟨by simp [insertMessageA, h], by simp [insertMessageB, h]⟩, ?_, ?_⟩
  · by_cases h : hasMessageId msgs m.id = true
    · simp [insertMessageA, h]
    · have h2 : hasMessageId (msgs ++ [m]) m.id = true := by
        simp [hasMessageId]
      simp [insertMessageA, h, h2]
  · by_cases h : hasMessageId msgs m.id = true
    · simp [insertMessageB, h]
    · have hm : m ∈ sortByTime (msgs ++ [m]) := by
        simp [sortByTime]
      have h2 : hasMessageId (sortByTime (msgs ++ [m])) m.id = true := by
        simp only [hasMessageId, List.any_eq_true]
        exact ⟨m, hm, by simp⟩
      simp [insertMessageB, h, h2]

def mX : Message := ⟨"x", "t", "s", 0, none⟩

/-- Claim C4 witness: the amended theorem applied to a store already
holding the inserted message's id. -/
theorem insert_idempotent_on_present_id_witness :
    insertMessageA mX [mX] = [mX] ∧ insertMessageB mX [mX] = [mX] :=
  (insert_idempotent_on_present_id mX [mX]).1 (by decide)

/-- Claim C5: a kind-1 event whose tags contain no entry `["t", channelId]`
exactly matching the current channel id is not inserted: the App.tsx router
leaves the whole state unchanged and emits no frames. -/
theorem kind1_wrong_channel_not_inserted
    (contentParse : String → Option ProfileJson) (conns : List Nat)
    (channelId subId : String) (e : RecvEvent) (st : ChatState)
    (hk : e.kind = 1)
    (ht : ∀ tag ∈ e.tags, ¬ (tag[0]? = some "t" ∧ tag[1]? = some channelId)) :
    onMessageA contentParse conns channelId (.evt subId e) st = (st, []) := by
  have hct : hasChannelTag e.tags channelId = false := by
    rw [hasChannelTag, List.any_eq_false]
    intro tag htag
    simp only [Bool.and_eq_true, decide_eq_true_eq, not_and]
    intro h1 h2
    exact ht tag htag ⟨h1, h2⟩
  simp [onMessageA, routeKind1A, hk, hct]

def eWrongChannel : RecvEvent := ⟨1, [["t", "other"], []], "m", 1, "pk", some "id", some "s"⟩

/-- Claim C5 witness: the theorem applied to a kind-1 event tagged for a
different channel (and with a malformed empty tag). -/
theorem kind1_wrong_channel_not_inserted_witness :
    onMessageA noParse [] "ch" (.evt "sub" eWrongChannel) ⟨[], [], []⟩ = (⟨[], [], []⟩, []) :=
  kind1_wrong_channel_not_inserted noParse [] "ch" "sub" eWrongChannel ⟨[], [], []⟩ rfl
    (by decide)

set_option maxRecDepth 16384 in
/-- Claim C6 (code-bug evidence): when the signing primitive throws during
`handleSendMessage`, the send does not fail hard: the built event carries
the substituted non-cryptographic fallback hash as its `sig`, one publish
frame still goes out to the open relay connection, and the local echo is
still inserted into the Message Store. -/
theorem signing_throw_publishes_fallback_sig :
    ((handleSendMessageA sha0 throwingSignPrim "hi" (some uA) "ch" 5 5000 [1] st0A).event.map
        NostrEvent.sig) = some (fallbackSignature "k")
    ∧ (handleSendMessageA sha0 throwingSignPrim "hi" (some uA) "ch" 5 5000 [1] st0A).published.length = 1
    ∧ (handleSendMessageA sha0 throwingSignPrim "hi" (some uA) "ch" 5 5000 [1] st0A).state.messages.length = 1 :=
  ⟨rfl, rfl, rfl⟩

/-- Claim C7: a kind-0 event whose content fails to parse as JSON leaves
the Profile Store and every other store unchanged in both router variants,
and the failure does not propagate past the router (the router is a total
function that returns the unchanged state). -/
theorem kind0_unparseable_leaves_state
    (contentParse : String → Option ProfileJson) (conns : List Nat)
    (channelId subId : String) (e : RecvEvent) (st : ChatState) (stB : ChatStateB)
    (hk : e.kind = 0)
    (hp : contentParse e.content = none) :
    onMessageA contentParse conns channelId (.evt subId e) st = (st, [])
    ∧ onMessageB contentParse conns channelId (.evt subId e) stB = (stB, []) := by
  constructor <;> simp [onMessageA, onMessageB, routeKind0A, routeKind0B, hk, hp]

def eBadContent : RecvEvent := ⟨0, [], "not json", 1, "pk", some "id", some "s"⟩

/-- Claim C7 witness: the theorem applied to a kind-0 event with content
`"not json"` and the always-failing parse. -/
theorem kind0_unparseable_leaves_state_witness :
    onMessageA noParse [] "ch" (.evt "sub" eBadContent) ⟨[], [], []⟩ = (⟨[], [], []⟩, [])
    ∧ onMessageB noParse [] "ch" (.evt "sub" eBadContent) ⟨[], [], [], none⟩
        = (⟨[], [], [], none⟩, []) :=
  kind0_unparseable_leaves_state noParse [] "ch" "sub" eBadContent ⟨[], [], []⟩
    ⟨[], [], [], none⟩ rfl rfl

/-- Claim C8: calling `addUserToSubscription` with a pubkey already in the
subscribed-authors set leaves the set unchanged (the same list, hence the
same size and contents) and sends no subscription frame; and the set is
monotone — every member survives any call.  `addUserToSubscription` is the
only operation in the source that writes the set, so no operation removes
an author within a session. -/
theorem addUser_duplicate_noop_and_monotone (conns : List Nat)
    (subscribed : List String) (pubkey : String) :
    (pubkey ∈ subscribed → addUserToSubscription conns subscribed pubkey = ⟨subscribed, []⟩)
    ∧ ∀ q ∈ subscribed, q ∈ (addUserToSubscription conns subscribed pubkey).subscribedUsers := by
  constructor
  · intro h
    simp [addUserToSubscription, h]
  · intro q hq
    by_cases h : pubkey ∈ subscribed <;> simp [addUserToSubscription, h, hq]

/-- Claim C8 witness: adding `"a"` to the registry `["a"]` is a no-op with
no frames. -/
theorem addUser_duplicate_noop_and_monotone_witness :
    addUserToSubscription [] ["a"] "a" = ⟨["a"], []⟩ :=
  (addUser_duplicate_noop_and_monotone [] ["a"] "a").1 (by decide)

/-- Claim C9: broadcasting while zero connections are open cannot throw
(the send pipeline is a total function): every non-open connection is
silently skipped with no queuing (`published = []`), and the only Message
Store mutation is the sender's single local echo, inserted regardless of
relay availability; the Profile Store is untouched. -/
theorem broadcast_zero_open_safe (sha256 : String → List Nat)
    (signPrim : String → List Nat → Option String) (text : String) (u : User)
    (channelId : String) (created_at nowMs : Int) (conns : List Nat) (st : ChatState)
    (htext : jsTrim text ≠ "")
    (hconns : ∀ c ∈ conns, c ≠ wsOPEN) :
    (handleSendMessageA sha256 signPrim text (some u) channelId created_at nowMs conns st).published = []
    ∧ (handleSendMessageA sha256 signPrim text (some u) channelId created_at nowMs conns st).state.messages
        = st.messages ++ [localEchoMessage sha256 signPrim text channelId u created_at nowMs]
    ∧ (handleSendMessageA sha256 signPrim text (some u) channelId created_at nowMs conns st).state.profiles
        = st.profiles := by
  have hb := broadcastFrame_eq_nil (publishFrame
    (buildSignedEvent sha256 signPrim u.privateKey
      (channelMessageTemplate text channelId u.pubkey created_at)).1) conns hconns
  simp [handleSendMessageA, htext, hb]

/-- Claim C9 witness: the theorem applied with a single closed connection
(readyState 3). -/
theorem broadcast_zero_open_safe_witness :
    (handleSendMessageA sha0 spSig128 "hi" (some uA) "ch" 5 5000 [3] st0A).published = []
    ∧ (handleSendMessageA sha0 spSig128 "hi" (some uA) "ch" 5 5000 [3] st0A).state.messages
        = st0A.messages ++ [localEchoMessage sha0 spSig128 "hi" "ch" uA 5 5000]
    ∧ (handleSendMessageA sha0 spSig128 "hi" (some uA) "ch" 5 5000 [3] st0A).state.profiles
        = st0A.profiles :=
  broadcast_zero_open_safe sha0 spSig128 "hi" uA "ch" 5 5000 [3] st0A (by decide) (by decide)

/-- Claim C10: routing a valid kind-0 event authored by pubkey P changes at
most P's Profile Store entry — every other pubkey's profile lookup is
unchanged — and the Message Store is unchanged, in both router variants. -/
theorem kind0_frame_condition
    (contentParse : String → Option ProfileJson) (conns : List Nat)
    (channelId subId : String) (e : RecvEvent) (st : ChatState) (stB : ChatStateB)
    (q : String) (p : ProfileJson)
    (hk : e.kind = 0)
    (hp : contentParse e.content = some p)
    (hq : q ≠ e.pubkey) :
    lookupProfile q (onMessageA contentParse conns channelId (.evt subId e) st).1.profiles
      = lookupProfile q st.profiles
    ∧ (onMessageA contentParse conns channelId (.evt subId e) st).1.messages = st.messages
    ∧ lookupProfile q (onMessageB contentParse conns channelId (.evt subId e) stB).1.profiles
      = lookupProfile q stB.profiles
    ∧ (onMessageB contentParse conns channelId (.evt subId e) stB).1.messages = stB.messages := by
  refine ⟨?_, ?_, ?_, ?_⟩ <;>
    simp [onMessageA, onMessageB, routeKind0A, routeKind0B, hk, hp,
      lookupProfile_upsert_ne q e.pubkey (profileRecord p e.pubkey) st.profiles hq,
      lookupProfile_upsert_ne q e.pubkey (profileRecord p e.pubkey) stB.profiles hq]

def eProfile : RecvEvent :=
  ⟨0, [], "\x7b\"name\":\"Alice\"\x7d", 1, "pk", some "id", some "s"⟩

/-- Claim C10 witness: the theorem applied to a kind-0 profile event from
`"pk"` and the unrelated pubkey `"other"`. -/
theorem kind0_frame_condition_witness :
    lookupProfile "other" (onMessageA aliceParse [] "ch" (.evt "sub" eProfile) ⟨[], [], []⟩).1.profiles
      = lookupProfile "other" ([] : List (String × Profile))
    ∧ (onMessageA aliceParse [] "ch" (.evt "sub" eProfile) ⟨[], [], []⟩).1.messages = []
    ∧ lookupProfile "other" (onMessageB aliceParse [] "ch" (.evt "sub" eProfile) ⟨[], [], [], none⟩).1.profiles
      = lookupProfile "other" ([] : List (String × Profile))
    ∧ (onMessageB aliceParse [] "ch" (.evt "sub" eProfile) ⟨[], [], [], none⟩).1.messages = [] :=
  kind0_frame_condition aliceParse [] "ch" "sub" eProfile ⟨[], [], []⟩ ⟨[], [], [], none⟩
    "other" ⟨some "Alice", none, none⟩ rfl rfl (by decide)

end NostrIM
